import Mathlib

/-!
# Verification of the lovea-app compatibility / matching layer

Shallow embedding of the JavaScript sources of `lovea-app`
(`src/js/ai-matching.js`, `src/js/auth-backend.js`) in Lean 4, together
with theorems settling the frozen claims about the natural-language
specification.

Conventions of the embedding:
* JS numbers used as ages and bonuses are modelled as `Int`; the score
  accumulator, which receives the fractional random jitter
  (`Math.random() * 10 - 5`), is modelled as `ℚ`, and the jitter value is
  an explicit parameter.
* Nullable / possibly-`undefined` fields are `Option`; JS truthiness of a
  nullable string (`null`, `undefined` and `""` are falsy) is `jsTruthy`.
* `String.prototype.toLowerCase`, `includes`, `split(',')`, `trim` are
  modelled by `jsToLower`, `jsIncludes`, `jsSplitComma`, `String.trim`
  (ASCII-faithful, which covers all uses in the source).
* The external LLM call (`fetch` + regex match + `JSON.parse`) is an
  oracle: its observable outcome is a value of `LLMResult`.
* IndexedDB object stores are lists of records; `store.put` replaces the
  record with the same primary key.
-/

namespace Lovea

/-- JS truthiness of a nullable string: `null`/`undefined` and `""` are
falsy, every other string is truthy. -/
def jsTruthy : Option String → Bool
  | none => false
  | some s => !s.isEmpty

/-- `String.prototype.toLowerCase` (ASCII range, as used by the app). -/
def jsToLower (s : String) : String :=
  String.mk (s.data.map Char.toLower)

/-- Does the character list `s` start with the character list `pre`? -/
def charsStartWith : List Char → List Char → Bool
  | _, [] => true
  | [], _ :: _ => false
  | a :: s, b :: t => a == b && charsStartWith s t

/-- Does the character list `s` have `sub` as a contiguous sublist?
(model of `String.prototype.includes`). -/
def charsHaveSub : List Char → List Char → Bool
  | [], sub => sub.isEmpty
  | a :: s, sub => charsStartWith (a :: s) sub || charsHaveSub s sub

/-- `s.includes(sub)` on strings. -/
def jsIncludes (s sub : String) : Bool :=
  charsHaveSub s.data sub.data

/-- Splitting a character list at commas (auxiliary for `jsSplitComma`;
`acc` holds the reversed current chunk). -/
def splitCommaChars : List Char → List Char → List (List Char)
  | [], acc => [acc.reverse]
  | c :: rest, acc =>
      if c == ',' then acc.reverse :: splitCommaChars rest []
      else splitCommaChars rest (c :: acc)

/-- `s.split(',')` (single-character separator, as in the source): the
comma-separated chunks of `s`, `[""]` for the empty string. -/
def jsSplitComma (s : String) : List String :=
  (splitCommaChars s.data []).map String.mk

/-- A whitespace character in the sense of `String.prototype.trim`
(the app only ever has ASCII spaces around region names). -/
def isJsSpace (c : Char) : Bool :=
  c == ' ' || c == '\t' || c == '\n' || c == '\r'

/-- `s.trim()`: strip leading and trailing whitespace. -/
def jsTrim (s : String) : String :=
  String.mk (((s.data.dropWhile isJsSpace).reverse.dropWhile isJsSpace).reverse)

/-- `loc.split(',')[1]?.trim()` : the second comma-separated component,
trimmed, or `none` when the string has no comma. -/
def regionComponent (loc : String) : Option String :=
  ((jsSplitComma loc)[1]?).map jsTrim

/-- A profile record, with the fields read by the matching engine
(`name`, `age`, `occupation`, `bio`, `interests`, `location`). -/
structure Profile where
  name : String
  age : Int
  occupation : Option String := none
  bio : Option String := none
  interests : Option (List String) := none
  location : Option String := none
deriving Repr, DecidableEq

/-- The result object returned by both compatibility calculators:
`{ score, reason, highlights, concerns }`.  `score` is a JS number, kept
as `ℚ` (the LLM path does not round). -/
structure CompatResult where
  score : ℚ
  reason : String
  highlights : List String
  concerns : List String
deriving Repr, DecidableEq

/-- `Math.round` on a rational JS number: round half toward `+∞`. -/
def jsRound (q : ℚ) : Int :=
  ⌊q + 1 / 2⌋

/-- Age block of `calculateSimpleCompatibility`
(`src/js/ai-matching.js` lines 130-135): the bonus added for the age
difference band of the two ages. -/
def ageBonus (age1 age2 : Int) : Int :=
  if (age1 - age2).natAbs ≤ 5 then 15
  else if (age1 - age2).natAbs ≤ 10 then 10
  else if (age1 - age2).natAbs ≤ 15 then 5
  else -10

/-- Location block of `calculateSimpleCompatibility` (lines 137-143):
`+15` when both lowercased locations contain `"ny"`, else `+10` when
`loc1.split(',')[1]?.trim() === loc2.split(',')[1]?.trim()` (note that
two locations without a comma compare `undefined === undefined`, which
is `true` in JS and `none == none` here), else `0`; `0` when either
location is absent or empty (falsy). -/
def locationBonus (location1 location2 : Option String) : Int :=
  if jsTruthy location1 && jsTruthy location2 then
    if jsIncludes (jsToLower (location1.getD "")) "ny"
        && jsIncludes (jsToLower (location2.getD "")) "ny" then 15
    else if regionComponent (jsToLower (location1.getD ""))
        == regionComponent (jsToLower (location2.getD "")) then 10
    else 0
  else 0

/-- `commonInterests.length` of lines 148-150: the number of entries of
the first interests list that some entry of the second list equals
case-insensitively. -/
def interestMatchCount (l1 l2 : List String) : Nat :=
  (l1.filter fun i => l2.any fun j => jsToLower j == jsToLower i).length

/-- Interest block of `calculateSimpleCompatibility` (lines 145-152):
`min(20, commonInterests.length * 5)` when both interests arrays are
present and non-empty, else `0`. -/
def interestBonus (interests1 interests2 : Option (List String)) : Int :=
  match interests1, interests2 with
  | some l1, some l2 =>
      if l1.length > 0 && l2.length > 0 then
        min 20 ((interestMatchCount l1 l2 : Int) * 5)
      else 0
  | _, _ => 0

/-- The fixed keyword list of the bio block (line 156). -/
def bioKeywordList : List String :=
  ["travel", "music", "food", "fitness", "art", "reading", "movies",
   "hiking", "cooking"]

/-- `bioMatches` of lines 157-163: how many keywords occur in both
lowercased bios. -/
def bioMatchCount (bio1 bio2 : String) : Nat :=
  (bioKeywordList.filter fun k =>
    jsIncludes (jsToLower bio1) k && jsIncludes (jsToLower bio2) k).length

/-- Bio block of `calculateSimpleCompatibility` (lines 154-165):
`min(10, bioMatches * 2)` when both bios are truthy, else `0`. -/
def bioBonus (bio1 bio2 : Option String) : Int :=
  if jsTruthy bio1 && jsTruthy bio2 then
    min 10 ((bioMatchCount (bio1.getD "") (bio2.getD "") : Int) * 2)
  else 0

/-- The integer value of the `score` accumulator of
`calculateSimpleCompatibility` just before the random jitter of line 168
is added: base 50 plus the age, location, interest and bio blocks. -/
def preJitterScore (profile1 profile2 : Profile) : Int :=
  50 + ageBonus profile1.age profile2.age
    + locationBonus profile1.location profile2.location
    + interestBonus profile1.interests profile2.interests
    + bioBonus profile1.bio profile2.bio

/-- `calculateSimpleCompatibility(profile1, profile2)`
(`src/js/ai-matching.js` lines 127-176).  `jitter` is the value of
`Math.random() * 10 - 5` drawn at line 168.  The returned score is
`Math.min(100, Math.max(0, Math.round(score)))`. -/
def calculateSimpleCompatibility (profile1 profile2 : Profile) (jitter : ℚ) :
    CompatResult :=
  let score : ℚ := (preJitterScore profile1 profile2 : ℚ) + jitter
  { score := ((min 100 (max 0 (jsRound score)) : Int) : ℚ)
    reason := "Compatibility based on age, location, and profile details"
    highlights := ["Good age compatibility", "Similar location"]
    concerns :=
      if (profile1.age - profile2.age).natAbs > 15 then
        ["Significant age difference"]
      else [] }

/-- Observable outcome of the LLM interaction in `calculateCompatibility`
(lines 67-119): the `fetch`/API call may throw (`transportError`); the
response text may contain no `{...}` for the regex to match (`noJson`);
`JSON.parse` of the match may throw (`parseError`); or a JSON object with
a numeric `score` and optional fields is obtained (`parsed`). -/
inductive LLMResult where
  | transportError
  | noJson
  | parseError
  | parsed (score : ℚ) (reason : String)
      (highlights : Option (List String)) (concerns : Option (List String))
deriving Repr, DecidableEq

/-- `calculateCompatibility(profile1, profile2)` (lines 61-124): without
a truthy API key, the simple fallback; otherwise, on a successfully
parsed LLM response, `{ score: Math.min(100, Math.max(0, result.score)),
... }`; on a transport error, a response with no JSON object, or a JSON
parse failure, the `catch` block falls back to
`calculateSimpleCompatibility`. -/
def calculateCompatibility (apiKey : Option String) (llm : LLMResult)
    (profile1 profile2 : Profile) (jitter : ℚ) : CompatResult :=
  if !jsTruthy apiKey then
    calculateSimpleCompatibility profile1 profile2 jitter
  else
    match llm with
    | .parsed s reason highlights concerns =>
        { score := min 100 (max 0 s)
          reason := reason
          highlights := highlights.getD []
          concerns := concerns.getD [] }
    | _ => calculateSimpleCompatibility profile1 profile2 jitter

/-- An abstract snapshot of the browser-persistent state reachable from
the app: the `localStorage` key-value pairs and the IndexedDB record
payloads. -/
structure ClientStore where
  localStorageEntries : List (String × String)
  databaseRecords : List (String × String)
deriving Repr, DecidableEq

/-- Store-threaded embedding of `calculateSimpleCompatibility`: the
source body (`src/js/ai-matching.js` lines 127-176) performs no
`localStorage` access and no database operation — unlike e.g.
`getApiKey` — so the run returns the store untouched and computes the
result from the two profiles and the jitter draw alone. -/
def calculateSimpleCompatibilityRun (profile1 profile2 : Profile)
    (jitter : ℚ) (store : ClientStore) : CompatResult × ClientStore :=
  (calculateSimpleCompatibility profile1 profile2 jitter, store)

/-- A record of the IndexedDB `likes` store
(`src/js/auth-backend.js`, `createLike`): `{ fromUserId, toUserId,
type, timestamp }` plus the auto-generated key.  `likeType` embeds the
JS field `type` (`'like' | 'superlike' | 'pass'`). -/
structure LikeRecord where
  id : Nat
  fromUserId : Nat
  toUserId : Nat
  likeType : String
  timestamp : Nat
deriving Repr, DecidableEq

/-- `checkMutualLike(user1Id, user2Id)` (`src/js/auth-backend.js` lines
639-653): over all like records, find a `'like'` from user1 to user2
and a `'like'` from user2 to user1, and resolve with the truthiness of
`like1 && like2`. -/
def checkMutualLike (likes : List LikeRecord) (user1Id user2Id : Nat) : Bool :=
  ((likes.find? fun l =>
      l.fromUserId == user1Id && l.toUserId == user2Id
        && l.likeType == "like").isSome)
    && ((likes.find? fun l =>
      l.fromUserId == user2Id && l.toUserId == user1Id
        && l.likeType == "like").isSome)

/-- The state of a `BackendAPI` client (`src/js/auth-backend.js`): the
`token` and `currentUserId` fields plus the `localStorage` entries. -/
structure BackendState where
  token : Option String
  currentUserId : Option String
  localStorageEntries : List (String × String)
deriving Repr, DecidableEq

/-- `localStorage.removeItem(key)`: drop the entry with that key. -/
def removeItem (entries : List (String × String)) (key : String) :
    List (String × String) :=
  entries.filter fun kv => kv.1 != key

/-- `localStorage.getItem(key)`: the stored value, or `null`. -/
def getItem (entries : List (String × String)) (key : String) :
    Option String :=
  (entries.find? fun kv => kv.1 == key).map Prod.snd

/-- `BackendAPI.logout()` (`src/js/auth-backend.js` lines 1146-1156):
`try { await this.apiCall('/auth/logout', 'POST') } finally { ... }` —
the `finally` block nulls `token` and `currentUserId` and removes the
`auth_token` and `user_id` localStorage entries whether or not the API
call succeeded; a failed call still rejects the returned promise. -/
def logout (s : BackendState) (apiOk : Bool) :
    Except String Unit × BackendState :=
  ((if apiOk then Except.ok () else Except.error "API request failed"),
    { token := none
      currentUserId := none
      localStorageEntries :=
        removeItem (removeItem s.localStorageEntries "auth_token") "user_id" })

/-- `BackendAPI.isLoggedIn()` (lines 1158-1160):
`!!this.token && !!this.currentUserId`. -/
def isLoggedIn (s : BackendState) : Bool :=
  jsTruthy s.token && jsTruthy s.currentUserId

/-- A record of the IndexedDB `messages` store (`createMessage`):
`{ matchId, senderId, text, timestamp, read }` plus the auto-generated
key. -/
structure MessageRecord where
  id : Nat
  matchId : Nat
  senderId : Nat
  text : String
  timestamp : Nat
  read : Bool
deriving Repr, DecidableEq

/-- `getMatchMessages(matchId)` (`src/js/auth-backend.js` lines
689-703): all messages of the match, sorted ascending by timestamp. -/
def getMatchMessages (store : List MessageRecord) (matchId : Nat) :
    List MessageRecord :=
  (store.filter fun m => m.matchId == matchId).mergeSort
    fun a b => a.timestamp ≤ b.timestamp

/-- `store.put(message)` on the `messages` object store: replace the
record carrying the same primary key `id`.  (`markMessagesAsRead` only
puts records read from the store, so the insert-if-absent case of
IndexedDB `put` does not arise.) -/
def putMessage (store : List MessageRecord) (message : MessageRecord) :
    List MessageRecord :=
  store.map fun x => if x.id == message.id then message else x

/-- `markMessagesAsRead(matchId, userId)` (lines 706-721): take the
match's messages, keep those with `m.senderId !== userId && !m.read`,
set `read = true` on each and `put` them all back. -/
def markMessagesAsRead (store : List MessageRecord) (matchId userId : Nat) :
    List MessageRecord :=
  (((getMatchMessages store matchId).filter
      fun m => m.senderId != userId && !m.read).map
    fun m => { m with read := true }).foldl putMessage store

/-- `Math.round` fixes integers. -/
theorem jsRound_intCast (n : Int) : jsRound (n : ℚ) = n := by
  unfold jsRound
  rw [add_comm, Int.floor_add_int]
  norm_num

/-- With the jitter drawn as `0`, the returned score is just the clamped
integer pre-jitter score. -/
theorem simple_score_at_zero (profile1 profile2 : Profile) :
    (calculateSimpleCompatibility profile1 profile2 0).score
      = ((min 100 (max 0 (preJitterScore profile1 profile2)) : Int) : ℚ) := by
  show ((min 100 (max 0 (jsRound ((preJitterScore profile1 profile2 : ℚ) + 0))) : Int) : ℚ) = _
  rw [add_zero, jsRound_intCast]

/-- The clamped integer score is within `[0, 100]`. -/
theorem clamp_int_mem (z : Int) :
    0 ≤ min 100 (max 0 z) ∧ min 100 (max 0 z) ≤ 100 :=
  ⟨le_min (by norm_num) (le_max_left 0 z), min_le_left _ _⟩

/-- C1: for every pair of profile records the compatibility calculation
returns a score in `[0,100]`: `calculateSimpleCompatibility` always
returns an integer score with `0 ≤ score ≤ 100` (for every value of the
random jitter draw), and on the LLM path `calculateCompatibility` clamps
the parsed score into `[0,100]` as well. -/
theorem claim1_score_within_bounds :
    (∀ (profile1 profile2 : Profile) (jitter : ℚ),
      ∃ z : Int,
        (calculateSimpleCompatibility profile1 profile2 jitter).score = (z : ℚ)
          ∧ 0 ≤ z ∧ z ≤ 100)
    ∧ ∀ (apiKey : Option String) (llm : LLMResult)
        (profile1 profile2 : Profile) (jitter : ℚ),
        0 ≤ (calculateCompatibility apiKey llm profile1 profile2 jitter).score
          ∧ (calculateCompatibility apiKey llm profile1 profile2 jitter).score ≤ 100 := by
  have hsimple : ∀ (profile1 profile2 : Profile) (jitter : ℚ),
      ∃ z : Int,
        (calculateSimpleCompatibility profile1 profile2 jitter).score = (z : ℚ)
          ∧ 0 ≤ z ∧ z ≤ 100 := by
    intro p1 p2 j
    refine ⟨min 100 (max 0 (jsRound ((preJitterScore p1 p2 : ℚ) + j))), rfl, ?_, ?_⟩
    · exact (clamp_int_mem _).1
    · exact (clamp_int_mem _).2
  refine ⟨hsimple, ?_⟩
  intro key llm p1 p2 j
  unfold calculateCompatibility
  by_cases hk : jsTruthy key
  · simp only [hk, Bool.not_true, Bool.false_eq_true, if_false]
    match llm with
    | .transportError | .noJson | .parseError =>
        obtain ⟨z, hz, h0, h100⟩ := hsimple p1 p2 j
        rw [hz]
        exact ⟨by exact_mod_cast h0, by exact_mod_cast h100⟩
    | .parsed s r hs cs =>
        exact ⟨le_min (by norm_num) (le_max_left 0 s), min_le_left _ _⟩
  · simp only [Bool.not_eq_true] at hk
    simp only [hk, Bool.not_false, if_true]
    obtain ⟨z, hz, h0, h100⟩ := hsimple p1 p2 j
    rw [hz]
    exact ⟨by exact_mod_cast h0, by exact_mod_cast h100⟩

/-- C2: `calculateCompatibility` returns exactly the deterministic
fallback `calculateSimpleCompatibility(profile1, profile2)` whenever no
(truthy) API key is set, the LLM call raises a transport error, the
response contains no JSON object, or JSON parsing fails; no such error
is propagated — a result is returned. -/
theorem claim2_fallback_on_failure (apiKey : Option String)
    (llm : LLMResult) (profile1 profile2 : Profile) (jitter : ℚ)
    (h : jsTruthy apiKey = false ∨ llm = .transportError ∨ llm = .noJson
          ∨ llm = .parseError) :
    calculateCompatibility apiKey llm profile1 profile2 jitter
      = calculateSimpleCompatibility profile1 profile2 jitter := by
  unfold calculateCompatibility
  rcases h with h | h | h | h
  · simp [h]
  all_goals subst h
  all_goals by_cases hk : jsTruthy apiKey <;> simp [hk]

/-- Witness for C2: with no API key stored and a transport error, the
result at two concrete profiles equals the fallback. -/
theorem claim2_witness :
    calculateCompatibility none .transportError
        { name := "a", age := 30 } { name := "b", age := 28 } 0
      = calculateSimpleCompatibility
        { name := "a", age := 30 } { name := "b", age := 28 } 0 :=
  claim2_fallback_on_failure none .transportError
    { name := "a", age := 30 } { name := "b", age := 28 } 0 (Or.inl rfl)

/-- Splitting a comma-free character list yields a single chunk. -/
theorem splitCommaChars_no_comma (l : List Char) (acc : List Char)
    (h : ',' ∉ l) : splitCommaChars l acc = [acc.reverse ++ l] := by
  induction l generalizing acc with
  | nil => simp [splitCommaChars]
  | cons c rest ih =>
      simp only [List.mem_cons, not_or] at h
      have hc : (c == ',') = false := by
        simp only [beq_eq_false_iff_ne, ne_eq]
        intro hcc
        exact h.1 hcc.symm
      simp only [splitCommaChars, hc, Bool.false_eq_true, if_false]
      rw [ih _ h.2]
      simp

/-- A string without a comma has no region component: `split(',')[1]` is
`undefined`. -/
theorem regionComponent_no_comma (s : String) (h : ',' ∉ s.data) :
    regionComponent s = none := by
  unfold regionComponent jsSplitComma
  rw [splitCommaChars_no_comma s.data [] h]
  rfl

/-- Counterexample to C5: the two unrelated comma-free city names
`"Paris"` and `"Berlin"` DO receive a location bonus (`+10`), because
`split(',')[1]?.trim()` is `undefined` on both sides and
`undefined === undefined` holds; with equal ages and no other data the
score is 75 rather than the bonus-free 65. -/
theorem claim5_counterexample :
    locationBonus (some "Paris") (some "Berlin") = 10
      ∧ (calculateSimpleCompatibility
          { name := "p", age := 30, location := some "Paris" }
          { name := "q", age := 30, location := some "Berlin" } 0).score = 75 := by
  refine ⟨by decide, ?_⟩
  rw [simple_score_at_zero]
  norm_num [show preJitterScore
      { name := "p", age := 30, location := some "Paris" }
      { name := "q", age := 30, location := some "Berlin" } = 75 from by decide]

/-- C5 (amended): for two non-empty locations, a location bonus is
awarded exactly when both lowercased locations contain `"ny"`, or their
`split(',')[1]?.trim()` values are equal as possibly-absent values — in
particular two comma-free location strings always compare equal there
(`undefined === undefined`) and DO receive a bonus. -/
theorem claim5_location_bonus (loc1 loc2 : String)
    (h1 : loc1 ≠ "") (h2 : loc2 ≠ "") :
    (locationBonus (some loc1) (some loc2) ≠ 0
      ↔ (jsIncludes (jsToLower loc1) "ny" = true
            ∧ jsIncludes (jsToLower loc2) "ny" = true)
        ∨ regionComponent (jsToLower loc1) = regionComponent (jsToLower loc2))
    ∧ (',' ∉ (jsToLower loc1).data → ',' ∉ (jsToLower loc2).data →
        locationBonus (some loc1) (some loc2) ≠ 0) := by
  have hne : ∀ s : String, s ≠ "" → jsTruthy (some s) = true := by
    intro s hs
    have hE : s.isEmpty = false := by
      cases hE : s.isEmpty
      · rfl
      · exact absurd ((String.isEmpty_iff s).mp hE) hs
    simp [jsTruthy, hE]
  have ht1 : jsTruthy (some loc1) = true := hne loc1 h1
  have ht2 : jsTruthy (some loc2) = true := hne loc2 h2
  have hbonus : locationBonus (some loc1) (some loc2)
      = if jsIncludes (jsToLower loc1) "ny" && jsIncludes (jsToLower loc2) "ny"
        then 15
        else if regionComponent (jsToLower loc1) == regionComponent (jsToLower loc2)
        then 10 else 0 := by
    unfold locationBonus
    rw [ht1, ht2]
    rfl
  constructor
  · rw [hbonus]
    by_cases hny : (jsIncludes (jsToLower loc1) "ny"
        && jsIncludes (jsToLower loc2) "ny") = true
    · rw [if_pos hny]
      have hpair : jsIncludes (jsToLower loc1) "ny" = true
          ∧ jsIncludes (jsToLower loc2) "ny" = true := by
        simpa using hny
      constructor
      · intro _
        exact Or.inl ⟨hpair.1, hpair.2⟩
      · intro _
        norm_num
    · simp only [hny, if_false]
      by_cases hreg : (regionComponent (jsToLower loc1)
          == regionComponent (jsToLower loc2)) = true
      · simp only [hreg, if_true]
        simp only [Bool.and_eq_true] at hny
        constructor
        · intro _
          exact Or.inr (by simpa [beq_iff_eq] using hreg)
        · intro _
          norm_num
      · simp only [hreg, if_false]
        simp only [Bool.and_eq_true] at hny
        constructor
        · intro hfalse
          exact absurd rfl hfalse
        · intro hcase
          rcases hcase with hc | hc
          · exact absurd hc hny
          · exact absurd (by simpa [beq_iff_eq] using hc) (by simpa using hreg)
  · intro hc1 hc2
    rw [hbonus, regionComponent_no_comma _ hc1, regionComponent_no_comma _ hc2]
    by_cases hny : (jsIncludes (jsToLower loc1) "ny"
        && jsIncludes (jsToLower loc2) "ny") = true <;>
      simp [hny]

/-- Witness for C5 (amended): the comma-free pair `"Boston"`,
`"Chicago"` receives a (nonzero) location bonus. -/
theorem claim5_witness :
    locationBonus (some "Boston") (some "Chicago") ≠ 0 :=
  (claim5_location_bonus "Boston" "Chicago" (by decide) (by decide)).2
    (by decide) (by decide)

/-- C6: for profiles with non-empty interests lists the interest
contribution is `min(20, 5 * k)` with `k` the number of entries of the
first list case-insensitively equal to some entry of the second; and the
bonus never exceeds 20, for interests lists of every size. -/
theorem claim6_interest_cap :
    (∀ (l1 l2 : List String), l1 ≠ [] → l2 ≠ [] →
      interestBonus (some l1) (some l2)
        = min 20 (5 * (interestMatchCount l1 l2 : Int)))
    ∧ ∀ (interests1 interests2 : Option (List String)),
        interestBonus interests1 interests2 ≤ 20 := by
  constructor
  · intro l1 l2 h1 h2
    unfold interestBonus
    have hc : (decide (l1.length > 0) && decide (l2.length > 0)) = true := by
      simp [List.length_pos.mpr h1, List.length_pos.mpr h2]
    simp only [hc, if_true]
    rw [mul_comm]
  · intro i1 i2
    unfold interestBonus
    match i1, i2 with
    | none, _ => norm_num
    | some l1, none => norm_num
    | some l1, some l2 =>
        by_cases h : (decide (l1.length > 0) && decide (l2.length > 0)) = true
        · simp only [h, if_true]
          exact min_le_left _ _
        · simp only [h, if_false]
          norm_num

/-- Witness for C6: six shared interests still yield only the capped
bonus `min 20 30 = 20`. -/
theorem claim6_witness :
    interestBonus
        (some ["travel", "music", "food", "art", "hiking", "chess"])
        (some ["chess", "hiking", "art", "food", "music", "travel"])
      = min 20 (5 * (interestMatchCount
          ["travel", "music", "food", "art", "hiking", "chess"]
          ["chess", "hiking", "art", "food", "music", "travel"] : Int)) :=
  claim6_interest_cap.1 _ _ (by decide) (by decide)

/-- The age-band bonus is antitone in the age gap. -/
theorem ageBonus_le_of_natAbs_le (a1 a2 b1 b2 : Int)
    (h : (a1 - a2).natAbs ≤ (b1 - b2).natAbs) :
    ageBonus b1 b2 ≤ ageBonus a1 a2 := by
  unfold ageBonus
  split_ifs <;> omega

/-- `Math.round` is monotone. -/
theorem jsRound_mono {a b : ℚ} (h : a ≤ b) : jsRound a ≤ jsRound b :=
  Int.floor_mono (add_le_add_right h _)

/-- C7: base 50 with age-difference bands antitone in the gap.  First
part: with all non-age attributes equal and the same jitter draw, a
smaller (or equal) age gap yields a greater or equal score.  Second
part: with no location, no interests and no bio, the score is exactly
`clamp(round(50 + ageBand + jitter))` where the band value is `+15`,
`+10`, `+5` or `-10` according to the age gap. -/
theorem claim7_age_bands :
    (∀ (p1 p2 q1 q2 : Profile) (jitter : ℚ),
      p1.location = q1.location → p2.location = q2.location →
      p1.interests = q1.interests → p2.interests = q2.interests →
      p1.bio = q1.bio → p2.bio = q2.bio →
      (p1.age - p2.age).natAbs ≤ (q1.age - q2.age).natAbs →
      (calculateSimpleCompatibility q1 q2 jitter).score
        ≤ (calculateSimpleCompatibility p1 p2 jitter).score)
    ∧ ∀ (p1 p2 : Profile) (jitter : ℚ),
        p1.location = none → p2.location = none →
        p1.interests = none → p2.interests = none →
        p1.bio = none → p2.bio = none →
        (calculateSimpleCompatibility p1 p2 jitter).score
          = ((min 100 (max 0 (jsRound
              ((50 + ageBonus p1.age p2.age : Int) + jitter))) : Int) : ℚ)
        ∧ ((p1.age - p2.age).natAbs ≤ 5 ∧ ageBonus p1.age p2.age = 15
           ∨ 5 < (p1.age - p2.age).natAbs ∧ (p1.age - p2.age).natAbs ≤ 10
              ∧ ageBonus p1.age p2.age = 10
           ∨ 10 < (p1.age - p2.age).natAbs ∧ (p1.age - p2.age).natAbs ≤ 15
              ∧ ageBonus p1.age p2.age = 5
           ∨ 15 < (p1.age - p2.age).natAbs ∧ ageBonus p1.age p2.age = -10) := by
  constructor
  · intro p1 p2 q1 q2 j hL1 hL2 hI1 hI2 hB1 hB2 hage
    have hab := ageBonus_le_of_natAbs_le p1.age p2.age q1.age q2.age hage
    have hpre : preJitterScore q1 q2 ≤ preJitterScore p1 p2 := by
      unfold preJitterScore
      rw [hL1, hL2, hI1, hI2, hB1, hB2]
      omega
    have hq : (preJitterScore q1 q2 : ℚ) + j ≤ (preJitterScore p1 p2 : ℚ) + j := by
      have : (preJitterScore q1 q2 : ℚ) ≤ (preJitterScore p1 p2 : ℚ) := by
        exact_mod_cast hpre
      linarith
    have hclamp :
        min 100 (max 0 (jsRound ((preJitterScore q1 q2 : ℚ) + j)))
          ≤ min 100 (max 0 (jsRound ((preJitterScore p1 p2 : ℚ) + j))) :=
      min_le_min le_rfl (max_le_max le_rfl (jsRound_mono hq))
    show ((min 100 (max 0 (jsRound ((preJitterScore q1 q2 : ℚ) + j))) : Int) : ℚ)
      ≤ ((min 100 (max 0 (jsRound ((preJitterScore p1 p2 : ℚ) + j))) : Int) : ℚ)
    exact_mod_cast hclamp
  · intro p1 p2 j hL1 hL2 hI1 hI2 hB1 hB2
    constructor
    · have hpre : preJitterScore p1 p2 = 50 + ageBonus p1.age p2.age := by
        unfold preJitterScore
        rw [hL1, hL2, hI1, hI2, hB1, hB2]
        show 50 + ageBonus p1.age p2.age + 0 + 0 + 0 = _
        omega
      show ((min 100 (max 0 (jsRound ((preJitterScore p1 p2 : ℚ) + j))) : Int) : ℚ) = _
      rw [hpre]
    · unfold ageBonus
      split_ifs <;> omega

/-- Witness for C7: an age gap of 12 scores no higher than an age gap of
2 (65 versus 75 before jitter), all other attributes absent. -/
theorem claim7_witness :
    (calculateSimpleCompatibility
        { name := "c", age := 30 } { name := "d", age := 42 } 0).score
      ≤ (calculateSimpleCompatibility
        { name := "a", age := 30 } { name := "b", age := 32 } 0).score :=
  claim7_age_bands.1
    { name := "a", age := 30 } { name := "b", age := 32 }
    { name := "c", age := 30 } { name := "d", age := 42 } 0
    rfl rfl rfl rfl rfl rfl (by decide)

/-- An `any`-of-`beq` scan is the membership test. -/
theorem any_beq_eq_decide_mem {α : Type} [DecidableEq α] (L : List α) (x : α) :
    (L.any fun j => j == x) = decide (x ∈ L) := by
  cases hb : L.any fun j => j == x
  · have hm : x ∉ L := by
      intro hm
      have hT : (L.any fun j => j == x) = true := List.any_beq'.mpr hm
      rw [hb] at hT
      exact Bool.false_ne_true hT
    simp [hm]
  · have hm : x ∈ L := List.any_beq'.mp hb
    simp [hm]

/-- For duplicate-free lists, the number of elements of the first that
occur in the second is symmetric (it is the cardinality of the
intersection of the two element sets). -/
theorem filter_mem_length_comm {α : Type} [DecidableEq α] {L1 L2 : List α}
    (h1 : L1.Nodup) (h2 : L2.Nodup) :
    (L1.filter fun x => L2.any fun j => j == x).length
      = (L2.filter fun x => L1.any fun j => j == x).length := by
  have hcard : ∀ (A B : List α), A.Nodup →
      (A.filter fun x => decide (x ∈ B)).length = (A.toFinset ∩ B.toFinset).card := by
    intro A B hA
    rw [← List.toFinset_card_of_nodup (hA.filter _)]
    congr 1
    ext a
    simp [List.mem_toFinset, List.mem_filter, Finset.mem_inter]
  calc (L1.filter fun x => L2.any fun j => j == x).length
      = (L1.filter fun x => decide (x ∈ L2)).length := by
        congr 1
        apply List.filter_congr
        intro x _
        exact any_beq_eq_decide_mem L2 x
    _ = (L1.toFinset ∩ L2.toFinset).card := hcard L1 L2 h1
    _ = (L2.toFinset ∩ L1.toFinset).card := by rw [Finset.inter_comm]
    _ = (L2.filter fun x => decide (x ∈ L1)).length := (hcard L2 L1 h2).symm
    _ = (L2.filter fun x => L1.any fun j => j == x).length := by
        congr 1
        apply List.filter_congr
        intro x _
        exact (any_beq_eq_decide_mem L1 x).symm

/-- `interestMatchCount` in terms of the lowercased interest lists. -/
theorem interestMatchCount_eq_lower (l1 l2 : List String) :
    interestMatchCount l1 l2
      = ((l1.map jsToLower).filter fun x =>
          (l2.map jsToLower).any fun j => j == x).length := by
  unfold interestMatchCount
  rw [List.filter_map, List.length_map]
  congr 1
  apply List.filter_congr
  intro x _
  show (l2.any fun j => jsToLower j == jsToLower x)
    = ((l2.map jsToLower).any fun j => j == jsToLower x)
  rw [List.any_map]
  rfl

/-- With case-insensitively duplicate-free interest lists, the common
interest count is symmetric. -/
theorem interestMatchCount_comm (l1 l2 : List String)
    (h1 : (l1.map jsToLower).Nodup) (h2 : (l2.map jsToLower).Nodup) :
    interestMatchCount l1 l2 = interestMatchCount l2 l1 := by
  rw [interestMatchCount_eq_lower, interestMatchCount_eq_lower]
  exact filter_mem_length_comm h1 h2

/-- The age band bonus is symmetric in the two ages. -/
theorem ageBonus_comm (age1 age2 : Int) :
    ageBonus age1 age2 = ageBonus age2 age1 := by
  unfold ageBonus
  rw [show (age1 - age2).natAbs = (age2 - age1).natAbs from by omega]

/-- The location bonus is symmetric in the two locations. -/
theorem locationBonus_comm (location1 location2 : Option String) :
    locationBonus location1 location2 = locationBonus location2 location1 := by
  unfold locationBonus
  rw [Bool.and_comm (jsTruthy location2) (jsTruthy location1)]
  by_cases hT : (jsTruthy location1 && jsTruthy location2) = true
  · rw [if_pos hT, if_pos hT]
    rw [Bool.and_comm (jsIncludes (jsToLower (location2.getD "")) "ny")
         (jsIncludes (jsToLower (location1.getD "")) "ny")]
    by_cases hN : (jsIncludes (jsToLower (location1.getD "")) "ny"
        && jsIncludes (jsToLower (location2.getD "")) "ny") = true
    · rw [if_pos hN, if_pos hN]
    · rw [if_neg hN, if_neg hN]
      by_cases hR : regionComponent (jsToLower (location1.getD ""))
          = regionComponent (jsToLower (location2.getD ""))
      · rw [if_pos (beq_iff_eq.mpr hR), if_pos (beq_iff_eq.mpr hR.symm)]
      · rw [if_neg fun hc => hR (beq_iff_eq.mp hc),
            if_neg fun hc => hR (beq_iff_eq.mp hc).symm]
  · rw [if_neg hT, if_neg hT]

/-- Unfolding of the interest block on two present lists. -/
theorem interestBonus_some_some (l1 l2 : List String) :
    interestBonus (some l1) (some l2)
      = if (decide (l1.length > 0) && decide (l2.length > 0)) = true
        then min 20 ((interestMatchCount l1 l2 : Int) * 5) else 0 := rfl

/-- The interest bonus is symmetric given case-insensitively
duplicate-free interest lists. -/
theorem interestBonus_comm (interests1 interests2 : Option (List String))
    (h1 : ∀ l, interests1 = some l → (l.map jsToLower).Nodup)
    (h2 : ∀ l, interests2 = some l → (l.map jsToLower).Nodup) :
    interestBonus interests1 interests2 = interestBonus interests2 interests1 := by
  cases interests1 with
  | none =>
      cases interests2 with
      | none => rfl
      | some l => rfl
  | some l1 =>
      cases interests2 with
      | none => rfl
      | some l2 =>
          rw [interestBonus_some_some, interestBonus_some_some,
              Bool.and_comm (decide (l2.length > 0)) (decide (l1.length > 0))]
          by_cases hc : (decide (l1.length > 0) && decide (l2.length > 0)) = true
          · rw [if_pos hc, if_pos hc,
                interestMatchCount_comm l1 l2 (h1 l1 rfl) (h2 l2 rfl)]
          · rw [if_neg hc, if_neg hc]

/-- The bio keyword count is symmetric in the two bios. -/
theorem bioMatchCount_comm (bio1 bio2 : String) :
    bioMatchCount bio1 bio2 = bioMatchCount bio2 bio1 := by
  unfold bioMatchCount
  congr 1
  apply List.filter_congr
  intro k _
  exact Bool.and_comm _ _

/-- The bio bonus is symmetric in the two bios. -/
theorem bioBonus_comm (bio1 bio2 : Option String) :
    bioBonus bio1 bio2 = bioBonus bio2 bio1 := by
  unfold bioBonus
  rw [Bool.and_comm (jsTruthy bio2) (jsTruthy bio1),
      bioMatchCount_comm (bio2.getD "") (bio1.getD "")]

/-- Counterexample to C4: duplicate interest entries break the symmetry.
With interests `["art", "art"]` against `["art"]` the common-interest
count is 2 one way (`+10`) and 1 the other way (`+5`), so the scores
75 and 70 differ. -/
theorem claim4_counterexample :
    (calculateSimpleCompatibility
        { name := "a", age := 30, interests := some ["art", "art"] }
        { name := "b", age := 30, interests := some ["art"] } 0).score
      ≠ (calculateSimpleCompatibility
        { name := "b", age := 30, interests := some ["art"] }
        { name := "a", age := 30, interests := some ["art", "art"] } 0).score := by
  rw [simple_score_at_zero, simple_score_at_zero]
  norm_num [show preJitterScore
      { name := "a", age := 30, interests := some ["art", "art"] }
      { name := "b", age := 30, interests := some ["art"] } = 75 from by decide,
    show preJitterScore
      { name := "b", age := 30, interests := some ["art"] }
      { name := "a", age := 30, interests := some ["art", "art"] } = 70 from by decide]

/-- C4 (amended): the heuristic score is attached to the unordered pair
— `calculateSimpleCompatibility(p1, p2)` and
`calculateSimpleCompatibility(p2, p1)` return the same score for every
fixed jitter draw — provided each profile's interests list is free of
case-insensitive duplicates (with duplicate entries the common-interest
count, and hence the score, can differ between the two orders). -/
theorem claim4_score_symmetric (profile1 profile2 : Profile) (jitter : ℚ)
    (h1 : ∀ l, profile1.interests = some l → (l.map jsToLower).Nodup)
    (h2 : ∀ l, profile2.interests = some l → (l.map jsToLower).Nodup) :
    (calculateSimpleCompatibility profile1 profile2 jitter).score
      = (calculateSimpleCompatibility profile2 profile1 jitter).score := by
  have hpre : preJitterScore profile1 profile2 = preJitterScore profile2 profile1 := by
    unfold preJitterScore
    rw [ageBonus_comm, locationBonus_comm, interestBonus_comm _ _ h1 h2,
        bioBonus_comm]
  show ((min 100 (max 0 (jsRound ((preJitterScore profile1 profile2 : ℚ) + jitter))) : Int) : ℚ)
    = ((min 100 (max 0 (jsRound ((preJitterScore profile2 profile1 : ℚ) + jitter))) : Int) : ℚ)
  rw [hpre]

/-- Witness for C4 (amended): two full profiles with duplicate-free
interest lists (one sharing `"music"` case-insensitively) score the same
in both orders. -/
theorem claim4_witness :
    (calculateSimpleCompatibility
        { name := "a", age := 31, interests := some ["Art", "Music"],
          location := some "Manhattan, NY", bio := some "I love travel" }
        { name := "b", age := 33, interests := some ["music", "yoga"],
          location := some "Brooklyn, NY", bio := some "travel and food" } 0).score
      = (calculateSimpleCompatibility
        { name := "b", age := 33, interests := some ["music", "yoga"],
          location := some "Brooklyn, NY", bio := some "travel and food" }
        { name := "a", age := 31, interests := some ["Art", "Music"],
          location := some "Manhattan, NY", bio := some "I love travel" } 0).score :=
  claim4_score_symmetric _ _ 0
    (by
      intro l hl
      injection hl with h
      subst h
      decide)
    (by
      intro l hl
      injection hl with h
      subst h
      decide)

/-- C8: `calculateSimpleCompatibility` is stateless and deterministic:
runs from any two persistent-state snapshots return identical results
(same score, reason, highlights and concerns), and the persistent state
is left exactly as it was. -/
theorem claim8_stateless :
    ∀ (profile1 profile2 : Profile) (jitter : ℚ) (s1 s2 : ClientStore),
      (calculateSimpleCompatibilityRun profile1 profile2 jitter s1).1
        = (calculateSimpleCompatibilityRun profile1 profile2 jitter s2).1
      ∧ (calculateSimpleCompatibilityRun profile1 profile2 jitter s1).1.score
        = (calculateSimpleCompatibilityRun profile1 profile2 jitter s2).1.score
      ∧ (calculateSimpleCompatibilityRun profile1 profile2 jitter s1).1.reason
        = (calculateSimpleCompatibilityRun profile1 profile2 jitter s2).1.reason
      ∧ (calculateSimpleCompatibilityRun profile1 profile2 jitter s1).1.highlights
        = (calculateSimpleCompatibilityRun profile1 profile2 jitter s2).1.highlights
      ∧ (calculateSimpleCompatibilityRun profile1 profile2 jitter s1).1.concerns
        = (calculateSimpleCompatibilityRun profile1 profile2 jitter s2).1.concerns
      ∧ (calculateSimpleCompatibilityRun profile1 profile2 jitter s1).2 = s1 :=
  fun _ _ _ _ _ => ⟨rfl, rfl, rfl, rfl, rfl, rfl⟩

/-- C3: `checkMutualLike(u1, u2)` is true exactly when the store holds a
`'like'` from u1 toward u2 and a `'like'` from u2 toward u1, and it is
symmetric in its two arguments. -/
theorem claim3_mutual_like :
    (∀ (likes : List LikeRecord) (user1Id user2Id : Nat),
      checkMutualLike likes user1Id user2Id = true
        ↔ (∃ l ∈ likes, l.fromUserId = user1Id ∧ l.toUserId = user2Id
              ∧ l.likeType = "like")
          ∧ ∃ l ∈ likes, l.fromUserId = user2Id ∧ l.toUserId = user1Id
              ∧ l.likeType = "like")
    ∧ ∀ (likes : List LikeRecord) (user1Id user2Id : Nat),
        checkMutualLike likes user1Id user2Id
          = checkMutualLike likes user2Id user1Id := by
  constructor
  · intro likes u1 u2
    simp [checkMutualLike, List.find?_isSome, Bool.and_eq_true, beq_iff_eq,
      and_assoc]
  · intro likes u1 u2
    exact Bool.and_comm _ _

/-- After removal, lookup of the removed key misses; other keys are
untouched. -/
theorem getItem_removeItem (entries : List (String × String))
    (key otherKey : String) :
    getItem (removeItem entries otherKey) key
      = if key = otherKey then none else getItem entries key := by
  induction entries with
  | nil =>
      by_cases hko : key = otherKey <;> simp [getItem, removeItem, hko]
  | cons kv rest ih =>
      by_cases hk : kv.1 = otherKey
      · have h1 : removeItem (kv :: rest) otherKey = removeItem rest otherKey := by
          simp [removeItem, hk]
        rw [h1, ih]
        by_cases hko : key = otherKey
        · simp [hko]
        · have h2 : (kv.1 == key) = false := by
            simp only [beq_eq_false_iff_ne, ne_eq, hk]
            exact fun hc => hko hc.symm
          rw [if_neg hko, if_neg hko]
          unfold getItem
          simp [List.find?, h2]
      · have h1 : removeItem (kv :: rest) otherKey
            = kv :: removeItem rest otherKey := by
          simp [removeItem, hk]
        rw [h1]
        by_cases hkk : kv.1 = key
        · have hko : ¬ key = otherKey := fun hc => hk (hkk.trans hc)
          have hp : (kv.1 == key) = true := by
            simp [hkk]
          rw [if_neg hko]
          unfold getItem
          simp [List.find?, hp]
        · have h2 : (kv.1 == key) = false := by
            simp [hkk]
          unfold getItem
          simp only [List.find?, h2]
          exact ih

/-- C9: `BackendAPI.logout` always clears the local session — whether
the backend call succeeded or failed, afterwards `token` and
`currentUserId` are null, the `auth_token` and `user_id` localStorage
entries are gone, and `isLoggedIn()` is false. -/
theorem claim9_logout_clears :
    ∀ (s : BackendState) (apiOk : Bool),
      (logout s apiOk).2.token = none
      ∧ (logout s apiOk).2.currentUserId = none
      ∧ getItem (logout s apiOk).2.localStorageEntries "auth_token" = none
      ∧ getItem (logout s apiOk).2.localStorageEntries "user_id" = none
      ∧ isLoggedIn (logout s apiOk).2 = false := by
  intro s apiOk
  refine ⟨rfl, rfl, ?_, ?_, rfl⟩
  · show getItem (removeItem (removeItem s.localStorageEntries "auth_token")
        "user_id") "auth_token" = none
    rw [getItem_removeItem, if_neg (by decide), getItem_removeItem, if_pos rfl]
  · show getItem (removeItem (removeItem s.localStorageEntries "auth_token")
        "user_id") "user_id" = none
    rw [getItem_removeItem, if_pos rfl]

/-- A left fold of key-replacing puts over a key-duplicate-free batch
acts pointwise: each store record is replaced by the batch entry with
its key, if any. -/
theorem foldl_putMessage (L : List MessageRecord) :
    ∀ store : List MessageRecord, (L.map MessageRecord.id).Nodup →
      L.foldl putMessage store
        = store.map fun x => ((L.find? fun y => y.id == x.id).getD x) := by
  induction L with
  | nil =>
      intro store _
      simp [List.find?]
  | cons m L' ih =>
      intro store hnd
      simp only [List.map_cons, List.nodup_cons] at hnd
      show L'.foldl putMessage (putMessage store m) = _
      rw [ih (putMessage store m) hnd.2]
      unfold putMessage
      rw [List.map_map]
      apply List.map_congr_left
      intro x _
      show ((L'.find? fun y =>
            y.id == (if (x.id == m.id) = true then m else x).id).getD
          (if (x.id == m.id) = true then m else x))
        = ((m :: L').find? fun y => y.id == x.id).getD x
      by_cases hx : (x.id == m.id) = true
      · rw [if_pos hx]
        have hxm : x.id = m.id := by simpa using hx
        have hnone : (L'.find? fun y => y.id == m.id) = none := by
          rw [List.find?_eq_none]
          intro y hy hcpred
          have hyid : y.id = m.id := by simpa using hcpred
          exact hnd.1 (hyid ▸ List.mem_map_of_mem MessageRecord.id hy)
        have hhead : ((m :: L').find? fun y => y.id == x.id) = some m := by
          have hpm : (fun y : MessageRecord => y.id == x.id) m = true := by
            simp [hxm]
          simp [List.find?, hpm]
        rw [hnone, hhead]
        rfl
      · rw [if_neg hx]
        have hneq : ¬ m.id = x.id := by
          intro hc
          exact hx (by simp [hc.symm])
        have hhead : ((m :: L').find? fun y => y.id == x.id)
            = L'.find? fun y => y.id == x.id := by
          have hpm : (fun y : MessageRecord => y.id == x.id) m = false := by
            simp [hneq]
          simp [List.find?, hpm]
        rw [hhead]

/-- The batch of messages `markMessagesAsRead` puts back: exactly the
read-flagged copies of the store's unread messages of the match from
other senders. -/
theorem mem_unread_batch (store : List MessageRecord)
    (matchId userId : Nat) (y : MessageRecord) :
    y ∈ ((getMatchMessages store matchId).filter
          fun m => m.senderId != userId && !m.read).map
        (fun m => { m with read := true })
      ↔ ∃ m, m ∈ store ∧ m.matchId = matchId ∧ m.senderId ≠ userId
          ∧ m.read = false ∧ y = { m with read := true } := by
  simp only [getMatchMessages, List.mem_map, List.mem_filter,
    List.mem_mergeSort, Bool.and_eq_true, bne_iff_ne, ne_eq,
    Bool.not_eq_true', beq_iff_eq]
  constructor
  · rintro ⟨m, ⟨⟨hmem, hmatch⟩, hsender, hread⟩, hy⟩
    exact ⟨m, hmem, hmatch, hsender, hread, hy.symm⟩
  · rintro ⟨m, hmem, hmatch, hsender, hread, hy⟩
    exact ⟨m, ⟨⟨hmem, hmatch⟩, hsender, hread⟩, hy.symm⟩

/-- The put batch has duplicate-free keys whenever the store does. -/
theorem unread_batch_ids_nodup (store : List MessageRecord)
    (matchId userId : Nat)
    (hids : (store.map MessageRecord.id).Nodup) :
    ((((getMatchMessages store matchId).filter
          fun m => m.senderId != userId && !m.read).map
        (fun m => { m with read := true })).map MessageRecord.id).Nodup := by
  rw [List.map_map]
  show ((((store.filter fun m => m.matchId == matchId).mergeSort
      fun a b => a.timestamp ≤ b.timestamp).filter
        fun m => m.senderId != userId && !m.read).map MessageRecord.id).Nodup
  have h1 : ((store.filter fun m => m.matchId == matchId).map
      MessageRecord.id).Nodup :=
    ((List.filter_sublist store).map MessageRecord.id).nodup hids
  have h2 : (((store.filter fun m => m.matchId == matchId).mergeSort
      fun a b => a.timestamp ≤ b.timestamp).map MessageRecord.id).Nodup :=
    h1.perm ((List.mergeSort_perm _ _).map MessageRecord.id).symm
  exact ((List.filter_sublist _).map MessageRecord.id).nodup h2

/-- C10: `markMessagesAsRead(matchId, userId)` sets the `read` flag on
exactly the unread messages of that match sent by someone other than
`userId`, and changes nothing else: messages sent by `userId`, already
read messages, and messages of other matches are left as they were
(assuming distinct primary keys, as IndexedDB guarantees). -/
theorem claim10_mark_read_frame (store : List MessageRecord)
    (matchId userId : Nat)
    (hids : (store.map MessageRecord.id).Nodup) :
    markMessagesAsRead store matchId userId
      = store.map fun m =>
          if m.matchId = matchId ∧ m.senderId ≠ userId ∧ m.read = false
          then { m with read := true } else m := by
  unfold markMessagesAsRead
  rw [foldl_putMessage _ store (unread_batch_ids_nodup store matchId userId hids)]
  apply List.map_congr_left
  intro x hx
  by_cases hc : x.matchId = matchId ∧ x.senderId ≠ userId ∧ x.read = false
  · rw [if_pos hc]
    have hmem : { x with read := true }
        ∈ ((getMatchMessages store matchId).filter
            fun m => m.senderId != userId && !m.read).map
          (fun m => { m with read := true }) :=
      (mem_unread_batch store matchId userId _).mpr
        ⟨x, hx, hc.1, hc.2.1, hc.2.2, rfl⟩
    have hsome : (((getMatchMessages store matchId).filter
          fun m => m.senderId != userId && !m.read).map
        (fun m => { m with read := true })).find?
          (fun y => y.id == x.id) |>.isSome := by
      rw [List.find?_isSome]
      exact ⟨{ x with read := true }, hmem, by simp⟩
    obtain ⟨y, hy⟩ := Option.isSome_iff_exists.mp hsome
    have hymem := List.mem_of_find?_eq_some hy
    have hypred := List.find?_some hy
    obtain ⟨m, hm, hmmatch, hmsender, hmread, hym⟩ :=
      (mem_unread_batch store matchId userId y).mp hymem
    have hid : m.id = x.id := by
      have : y.id = x.id := by simpa using hypred
      rw [hym] at this
      exact this
    have hmx : m = x := List.inj_on_of_nodup_map hids hm hx hid
    rw [hy]
    show y = { x with read := true }
    rw [hym, hmx]
  · rw [if_neg hc]
    have hnone : (((getMatchMessages store matchId).filter
          fun m => m.senderId != userId && !m.read).map
        (fun m => { m with read := true })).find?
          (fun y => y.id == x.id) = none := by
      rw [List.find?_eq_none]
      intro y hy hpred
      obtain ⟨m, hm, hmmatch, hmsender, hmread, hym⟩ :=
        (mem_unread_batch store matchId userId y).mp hy
      have hid : m.id = x.id := by
        have : y.id = x.id := by simpa using hpred
        rw [hym] at this
        exact this
      have hmx : m = x := List.inj_on_of_nodup_map hids hm hx hid
      rw [hmx] at hmmatch hmsender hmread
      exact hc ⟨hmmatch, hmsender, hmread⟩
    rw [hnone]
    rfl

/-- Witness for C10 at a concrete store: of four messages — an unread
one from the other user in the match (id 1), one sent by the user
himself (id 2), an already-read one (id 3), and one of another match
(id 4) — only the first is flagged read. -/
theorem claim10_witness :
    markMessagesAsRead
        [{ id := 1, matchId := 7, senderId := 5, text := "hi",
           timestamp := 10, read := false },
         { id := 2, matchId := 7, senderId := 9, text := "hello",
           timestamp := 11, read := false },
         { id := 3, matchId := 7, senderId := 5, text := "hey",
           timestamp := 12, read := true },
         { id := 4, matchId := 8, senderId := 5, text := "yo",
           timestamp := 13, read := false }] 7 9
      = [{ id := 1, matchId := 7, senderId := 5, text := "hi",
           timestamp := 10, read := true },
         { id := 2, matchId := 7, senderId := 9, text := "hello",
           timestamp := 11, read := false },
         { id := 3, matchId := 7, senderId := 5, text := "hey",
           timestamp := 12, read := true },
         { id := 4, matchId := 8, senderId := 5, text := "yo",
           timestamp := 13, read := false }] := by
  rw [claim10_mark_read_frame _ 7 9 (by decide)]
  decide

end Lovea
